import Mathlib

/-!
Shallow embedding of the AIImageTools front-end (six image tools sharing one
request-building / response-handling workflow), together with proofs about the
behaviour of its validators, prompt builders, result handlers and the poster
tool's two-step logo-compositing flow.

Sources embedded: SocialMediaConverter.tsx, IDPhotoGenerator.tsx,
DoodleEnhancer.tsx, BeautyCamera.tsx, OutfitChanger.tsx (OutfitChanger and
PosterGenerator components).
-/

set_option maxRecDepth 20000

namespace AIImageTools

/-! ## Substring machinery (List Char based, executable) -/

/-- Whether the pattern is an initial segment of the text. -/
def matchesAt : List Char → List Char → Bool
  | [], _ => true
  | _ :: _, [] => false
  | a :: as, b :: bs => a == b && matchesAt as bs

/-- Whether the pattern occurs contiguously anywhere in the text. -/
def occursIn (pat : List Char) : List Char → Bool
  | [] => matchesAt pat []
  | c :: rest => matchesAt pat (c :: rest) || occursIn pat rest

/-- Whether `needle` occurs contiguously in `hay`, at the String level. -/
def strOccurs (needle hay : String) : Bool :=
  occursIn needle.data hay.data

/-! ## Shared data model: files and service responses -/

/-- A user-selected file: its name, declared MIME type, and the base64 payload
that `fileToBase64` resolves to for it. -/
structure JsFile where
  name : String
  type : String
  payload : String
deriving DecidableEq, Repr

/-- The allow-list shared by every tool (`SUPPORTED_MIME_TYPES`). -/
def SUPPORTED_MIME_TYPES : List String :=
  ["image/jpeg", "image/png", "image/webp"]

/-- JavaScript truthiness of an optional string: `none` and the empty string
are falsy. -/
def optStrFalsy : Option String → Bool
  | none => true
  | some s => s.isEmpty

/-- An inline image payload inside a response part. -/
structure InlineData where
  mimeType : String
  data : String
deriving DecidableEq, Repr

/-- One part of a response candidate's content: either text or inline data. -/
inductive RespPart where
  | text (t : String)
  | inline (d : InlineData)
deriving DecidableEq, Repr

/-- Whether a part carries inline data (the `p => p.inlineData` predicate). -/
def RespPart.hasInline : RespPart → Bool
  | .text _ => false
  | .inline _ => true

/-- The inline data of a part, when it has one. -/
def RespPart.inlineData : RespPart → Option InlineData
  | .text _ => none
  | .inline d => some d

/-- A response candidate: its content is a list of parts. -/
structure Candidate where
  parts : List RespPart
deriving DecidableEq, Repr

/-- A `generateContent` response: a list of candidates. -/
structure Response where
  candidates : List Candidate
deriving DecidableEq, Repr

/-- The handler's search
`response.candidates?.[0]?.content?.parts?.find(p => p.inlineData)`:
first inline part of the first candidate, if any. -/
def firstImagePart (r : Response) : Option InlineData :=
  match r.candidates.head? with
  | none => none
  | some c =>
    match c.parts.find? RespPart.hasInline with
    | none => none
    | some p => p.inlineData

/-- Outcome of one awaited `generateContent` call: the promise either rejects
with an error message or resolves to a response. -/
inductive GenOutcome where
  | thrown (msg : String)
  | responded (r : Response)
deriving DecidableEq, Repr

/-! ## SocialMediaConverter.tsx -/

/-- The social-media platforms offered by the converter. -/
inductive SocialPlatform where
  | Xiaohongshu
  | Instagram
  | Facebook
  | LinkedIn
deriving DecidableEq, Repr

/-- Component state of `SocialMediaConverter`. -/
structure SMState where
  originalImage : Option JsFile
  originalImageBase64 : Option String
  generatedImageBase64 : Option String
  isLoading : Bool
  error : Option String
  platform : SocialPlatform
deriving DecidableEq, Repr

/-- Initial state of `SocialMediaConverter` (`useState` defaults). -/
def smInit : SMState :=
  { originalImage := none
    originalImageBase64 := none
    generatedImageBase64 := none
    isLoading := false
    error := none
    platform := .Instagram }

/-- `handleFileChange` of SocialMediaConverter: clear error and result, then
validate the declared MIME type; store the file on acceptance, set the error
and clear the slot on rejection. -/
def smHandleFileChange (file? : Option JsFile) (s : SMState) : SMState :=
  let s1 := { s with error := none, generatedImageBase64 := none }
  match file? with
  | none => s1
  | some f =>
    if SUPPORTED_MIME_TYPES.contains f.type then
      { s1 with originalImage := some f, originalImageBase64 := some f.payload }
    else
      { s1 with
          error := some "Unsupported file type. Please upload a JPEG, PNG, or WEBP image."
          originalImage := none
          originalImageBase64 := none }

/-- `buildPrompt` of SocialMediaConverter: one fixed template per platform. -/
def smBuildPrompt (s : SMState) : String :=
  match s.platform with
  | .Xiaohongshu => "Recreate this image with a \"Xiaohongshu\" (Little Red Book) aesthetic. The style should be bright, clean, and visually pleasing with a soft, airy feel. Apply an aesthetic filter that enhances the colors to be slightly desaturated but warm. The overall mood should be aspirational, high-quality, and feel like a lifestyle blogger's post. If it makes sense, add a subtle, clean border."
  | .Instagram => "Transform this image to have a trendy and eye-catching \"Instagram\" style. Boost the vibrancy and contrast to make the colors pop. Sharpen the details for a high-quality look. The final image should be polished, engaging, and designed to stand out on a feed. Apply a modern, popular filter that gives it a professional but authentic look."
  | .Facebook => "Adapt this image for \"Facebook\". The style should be clean, natural, and well-lit. Enhance the colors to be warm and inviting, but avoid overly dramatic filters. The goal is an approachable, authentic image that looks clear and shareable for a general audience. The focus is on clarity and a friendly, community-oriented feel."
  | .LinkedIn => "Convert this image to a professional style suitable for \"LinkedIn\". The aesthetic must be clean, sharp, and polished. Use a more muted, corporate color palette (e.g., emphasizing blues and neutrals). If there is a person, ensure they look competent and trustworthy. The background should be clean and non-distracting. The overall tone must be professional and serious."

/-- The no-image error message shared by the single-image tools (with its
per-tool final sentence). -/
def noImageMsg (subject : String) : String :=
  "The model did not return an image. This might be due to a safety filter or an issue with the input. Please try a different " ++ subject ++ "."

/-- `handleGenerateClick` of SocialMediaConverter, with the awaited service
call's outcome passed explicitly. Guard, then clear error/result, then handle
the response or the thrown error. -/
def smGenerate (out : GenOutcome) (s : SMState) : SMState :=
  if s.originalImage.isNone || optStrFalsy s.originalImageBase64 then
    { s with error := some "Please upload an image first." }
  else
    let s1 := { s with isLoading := true, error := none, generatedImageBase64 := none }
    let s2 :=
      match out with
      | .thrown m =>
        { s1 with error := some ("An error occurred while generating the image: " ++ m) }
      | .responded r =>
        match firstImagePart r with
        | some d => { s1 with generatedImageBase64 := some d.data }
        | none => { s1 with error := some (noImageMsg "photo") }
    { s2 with isLoading := false }

/-- Events a user (or the service) can feed to a SocialMediaConverter
instance, each handled to completion. -/
inductive SMEvent where
  | selectFile (f : Option JsFile)
  | choosePlatform (p : SocialPlatform)
  | generate (out : GenOutcome)
deriving Repr

/-- One event step of the SocialMediaConverter instance. -/
def smStep (s : SMState) (e : SMEvent) : SMState :=
  match e with
  | .selectFile f => smHandleFileChange f s
  | .choosePlatform p => { s with platform := p }
  | .generate out => smGenerate out s

/-- The state reached from the initial state after a list of events. -/
def smRun (evs : List SMEvent) : SMState :=
  evs.foldl smStep smInit

/-! ## IDPhotoGenerator.tsx -/

/-- Component state of `IDPhotoGenerator`. -/
structure IDState where
  originalImage : Option JsFile
  originalImageBase64 : Option String
  backgroundImage : Option JsFile
  backgroundImageBase64 : Option String
  broochImage : Option JsFile
  broochImageBase64 : Option String
  suitColor : String
  shirtColor : String
  hasTie : Bool
  tieColor : String
  generatedImageBase64 : Option String
  isLoading : Bool
  error : Option String
deriving DecidableEq, Repr

/-- Initial state of `IDPhotoGenerator` (`useState` defaults). -/
def idInit : IDState :=
  { originalImage := none
    originalImageBase64 := none
    backgroundImage := none
    backgroundImageBase64 := none
    broochImage := none
    broochImageBase64 := none
    suitColor := "black"
    shirtColor := "white"
    hasTie := true
    tieColor := "deep blue"
    generatedImageBase64 := none
    isLoading := false
    error := none }

/-- The three image upload slots of the ID-photo tool. -/
inductive IDSlot where
  | portrait
  | background
  | brooch
deriving DecidableEq, Repr

/-- The `fileType` string passed to `createHandleFileChange` for each slot. -/
def idSlotName : IDSlot → String
  | .portrait => "portrait"
  | .background => "background"
  | .brooch => "brooch"

/-- Write a slot's image and base64 fields (the `setImage` / `setBase64`
pair handed to `createHandleFileChange`). -/
def idSetSlot (sl : IDSlot) (img : Option JsFile) (b64 : Option String)
    (s : IDState) : IDState :=
  match sl with
  | .portrait => { s with originalImage := img, originalImageBase64 := b64 }
  | .background => { s with backgroundImage := img, backgroundImageBase64 := b64 }
  | .brooch => { s with broochImage := img, broochImageBase64 := b64 }

/-- Read a slot's image field. -/
def idSlotImage (s : IDState) : IDSlot → Option JsFile
  | .portrait => s.originalImage
  | .background => s.backgroundImage
  | .brooch => s.broochImage

/-- Read a slot's base64 field. -/
def idSlotBase64 (s : IDState) : IDSlot → Option String
  | .portrait => s.originalImageBase64
  | .background => s.backgroundImageBase64
  | .brooch => s.broochImageBase64

/-- The handler produced by `createHandleFileChange` for one slot of
IDPhotoGenerator: clear the error, then validate the declared MIME type;
store the file on acceptance, set the error and clear the slot on
rejection. -/
def idHandleFileChange (sl : IDSlot) (file? : Option JsFile) (s : IDState) : IDState :=
  let s1 := { s with error := none }
  match file? with
  | none => s1
  | some f =>
    if SUPPORTED_MIME_TYPES.contains f.type then
      idSetSlot sl (some f) (some f.payload) s1
    else
      { idSetSlot sl none none s1 with
          error := some ("Unsupported " ++ idSlotName sl ++ " file type. Please upload a JPEG, PNG, or WEBP image.") }

/-- Truthiness of `backgroundImage && backgroundImageBase64` at generation
time. -/
def idHasBg (s : IDState) : Bool :=
  s.backgroundImage.isSome && !optStrFalsy s.backgroundImageBase64

/-- Truthiness of `broochImage && broochImageBase64` at generation time. -/
def idHasBrooch (s : IDState) : Bool :=
  s.broochImage.isSome && !optStrFalsy s.broochImageBase64

/-- The fixed opening of the ID-photo prompt together with the attire
section and the background header, as accumulated by `handleGenerateClick`
before the background branch. -/
def idPromptHead (s : IDState) : String :=
  "Your task is to transform the person in the first image into a highly-detailed, professional ID photo based on the following precise instructions. CRITICAL: You must preserve the person's original facial features, hair, and expression exactly as they appear in the source portrait.\n\n"
  ++ "**Attire Customization:**\n"
  ++ ("- The person must be dressed in a formal **" ++ s.suitColor ++ " suit jacket**.\n")
  ++ ("- Underneath the jacket, they must wear a crisp **" ++ s.shirtColor ++ " shirt**.\n")
  ++ (if s.hasTie then
        "- They must wear a **" ++ s.tieColor ++ " tie**, neatly knotted.\n"
      else
        "- The shirt should be buttoned to the top, but **without a tie**.\n")
  ++ "\n**Background Instructions:**\n"

/-- The background line used when a background image accompanies the
request. -/
def idBgImageLine : String :=
  "- Extract the person from the first image and place them seamlessly onto the **second image**, which serves as the new background.\n"

/-- The background line used when no background image is held: the solid
white fallback. -/
def idBgWhiteLine : String :=
  "- The background must be a solid, pure **white color** (#FFFFFF), suitable for an official ID photo.\n"

/-- The accessory section appended when a brooch image accompanies the
request. -/
def idBroochBlock : String :=
  "\n**Accessory Instructions (Absolute Priority):**\n- Take the **third image (the brooch)** and add it to the person's suit.\n- **Placement:** The brooch MUST be placed on the **upper part of the suit jacket's lapel**. This is a non-negotiable placement.\n- **Sizing:** The brooch MUST be rendered as a **very small and delicate** accessory. It should be an elegant, subtle detail, not a large, distracting object. Its size should be proportional to the lapel.\n- **Realism:** Ensure the brooch's lighting, shadows, and angle perfectly match the suit jacket to make it look completely realistic and naturally pinned on.\n"

/-- The fixed closing sentence of the ID-photo prompt. -/
def idPromptFinal : String :=
  "\nFinal result must be a high-resolution, professional, and realistic ID photograph."

/-- The tail of the ID-photo prompt after the background line: the optional
accessory section followed by the closing sentence. -/
def idPromptTail (hasBrooch : Bool) : String :=
  (if hasBrooch then idBroochBlock else "") ++ idPromptFinal

/-- The complete `promptText` assembled by `handleGenerateClick` of
IDPhotoGenerator from the current state. -/
def idPromptText (s : IDState) : String :=
  idPromptHead s
  ++ ((if idHasBg s then idBgImageLine else idBgWhiteLine)
      ++ idPromptTail (idHasBrooch s))

/-- One part of a `generateContent` request: inline image data or text. -/
inductive ReqPart where
  | inlineImg (data : String) (mimeType : String)
  | textPart (t : String)
deriving DecidableEq, Repr

/-- The `parts` array assembled by `handleGenerateClick` of
IDPhotoGenerator: the portrait, then the background image if held, then the
brooch image if held, then the prompt text. -/
def idParts (s : IDState) : List ReqPart :=
  [ReqPart.inlineImg (s.originalImageBase64.getD "") ((s.originalImage.map JsFile.type).getD "")]
  ++ (if idHasBg s then
        [ReqPart.inlineImg (s.backgroundImageBase64.getD "") ((s.backgroundImage.map JsFile.type).getD "")]
      else [])
  ++ (if idHasBrooch s then
        [ReqPart.inlineImg (s.broochImageBase64.getD "") ((s.broochImage.map JsFile.type).getD "")]
      else [])
  ++ [ReqPart.textPart (idPromptText s)]

/-- `handleGenerateClick` of IDPhotoGenerator, with the awaited service
call's outcome passed explicitly. -/
def idGenerate (out : GenOutcome) (s : IDState) : IDState :=
  if s.originalImage.isNone || optStrFalsy s.originalImageBase64 then
    { s with error := some "Please upload a portrait photo first." }
  else
    let s1 := { s with isLoading := true, error := none, generatedImageBase64 := none }
    let s2 :=
      match out with
      | .thrown m =>
        { s1 with error := some ("An error occurred while generating the image: " ++ m) }
      | .responded r =>
        match firstImagePart r with
        | some d => { s1 with generatedImageBase64 := some d.data }
        | none => { s1 with error := some (noImageMsg "photo") }
    { s2 with isLoading := false }

/-- Events a user (or the service) can feed to an IDPhotoGenerator
instance. -/
inductive IDEvent where
  | selectFile (sl : IDSlot) (f : Option JsFile)
  | setSuitColor (c : String)
  | setShirtColor (c : String)
  | setHasTie (b : Bool)
  | setTieColor (c : String)
  | generate (out : GenOutcome)
deriving Repr

/-- One event step of the IDPhotoGenerator instance. -/
def idStep (s : IDState) (e : IDEvent) : IDState :=
  match e with
  | .selectFile sl f => idHandleFileChange sl f s
  | .setSuitColor c => { s with suitColor := c }
  | .setShirtColor c => { s with shirtColor := c }
  | .setHasTie b => { s with hasTie := b }
  | .setTieColor c => { s with tieColor := c }
  | .generate out => idGenerate out s

/-- The state reached from the initial state after a list of events. -/
def idRun (evs : List IDEvent) : IDState :=
  evs.foldl idStep idInit

/-! ## DoodleEnhancer.tsx -/

/-- Numeric value of the leading decimal-digit run of a character list;
`none` when there is no leading digit. -/
def leadingDigitsVal (cs : List Char) : Option Nat :=
  let ds := cs.takeWhile Char.isDigit
  if ds.isEmpty then none
  else some (ds.foldl (fun a c => a * 10 + (c.toNat - 48)) 0)

/-- JavaScript `parseInt(str, 10)`: skip leading whitespace, read an optional
sign and then the longest run of decimal digits; `none` models `NaN`. -/
def jsParseInt (str : String) : Option Int :=
  let cs := str.data.dropWhile Char.isWhitespace
  match cs with
  | '-' :: rest => (leadingDigitsVal rest).map (fun n => -(n : Int))
  | '+' :: rest => (leadingDigitsVal rest).map (fun n => (n : Int))
  | _ => (leadingDigitsVal cs).map (fun n => (n : Int))

/-- `handlePanelCountChange` of DoodleEnhancer: parse the field text, coerce
`NaN` to 1, then clamp above at 9 and below at 1; the result is stored as
the new panel count. -/
def handlePanelCountChange (input : String) : Int :=
  let v0 : Int :=
    match jsParseInt input with
    | none => 1
    | some v => v
  let v1 : Int := if v0 > 9 then 9 else v0
  if v1 < 1 then 1 else v1

/-- `buildPrompt` of DoodleEnhancer as a function of the art style and the
stored panel count. -/
def doodleBuildPrompt (artStyle : String) (panelCount : Int) : String :=
  "You are an expert storyteller and comic artist. Your task is to take this child's doodle and turn it into a multi-panel comic strip story.\n\n**Instructions:**\n1.  **First Panel:** The provided doodle is the very first panel of the story. It sets the scene and introduces the main character or subject.\n2.  **Story Generation:** Based on the doodle, invent a creative, coherent, and imaginative story that unfolds over a total of **"
  ++ toString panelCount
  ++ "** panels. The plot should become more detailed and engaging as the number of panels increases. If the user requests many panels (e.g., 6-9), the story should have a clear beginning, middle, and end.\n3.  **Art Style:** The entire comic strip, including all characters, backgrounds, and panel borders, must be rendered in the **"
  ++ artStyle
  ++ "** art style.\n4.  **Final Output:** Your final output must be a **single image** that contains all "
  ++ toString panelCount
  ++ " panels arranged in a logical grid format (e.g., left-to-right, top-to-bottom), telling the complete story from start to finish. Do not output separate images for each panel."

/-! ## BeautyCamera.tsx -/

/-- Component state of `BeautyCamera`. -/
structure BeautyState where
  originalImage : Option JsFile
  originalImageBase64 : Option String
  generatedImageBase64 : Option String
  isLoading : Bool
  error : Option String
  beautyLevel : String
  faceReshape : Nat
  bodySlimming : Nat
  chestEnhancement : Nat
  legExtension : Nat
  filter : String
deriving DecidableEq, Repr

/-- The parameter record that BeautyCamera's prompt is built from: the
beauty level, the four slider percentages and the filter choice. -/
structure BeautyParams where
  beautyLevel : String
  faceReshape : Nat
  bodySlimming : Nat
  chestEnhancement : Nat
  legExtension : Nat
  filter : String
deriving DecidableEq, Repr

/-- Projection of a BeautyCamera state onto its prompt parameters. -/
def beautyParamsOf (s : BeautyState) : BeautyParams :=
  { beautyLevel := s.beautyLevel
    faceReshape := s.faceReshape
    bodySlimming := s.bodySlimming
    chestEnhancement := s.chestEnhancement
    legExtension := s.legExtension
    filter := s.filter }

/-- `buildPrompt` of BeautyCamera: the fixed beautification template with the
level, slider and filter values interpolated. -/
def beautyBuildPrompt (s : BeautyState) : String :=
  "Please perform a professional-grade beautification on the person or people in this portrait, following these specific instructions. It is critical that all changes appear natural and realistic, and that the person's core identity and facial features are preserved. Handle both single and multiple faces if present. Ensure the background remains completely free of distortion.\n\n1.  **Skin Enhancement (Beauty Level: "
  ++ s.beautyLevel
  ++ ")**:\n    *   **Goal**: Achieve a "
  ++ s.beautyLevel.toLower
  ++ " look.\n    *   **Action**: Smooth the skin to remove blemishes, acne, and oiliness, but you **must** preserve natural skin texture to avoid a \"plastic\" look.\n    *   **Details**: Balance the skin tone, reduce the appearance of wrinkles and dark circles under the eyes, and remove fine facial hair for a clean finish.\n\n2.  **Eye Enhancement**:\n    *   **Action**: Make the eyes appear brighter and more vibrant. Remove any red-eye effect.\n    *   **Makeup**: If applicable based on the beauty level, naturally enhance eye makeup, including eyeliner, eyeshadow, and eyebrows, ensuring it blends perfectly.\n\n3.  **Face Reshaping (Intensity: "
  ++ toString s.faceReshape
  ++ "%)**:\n    *   **Action**: Subtly slim the face and refine the jawline by approximately "
  ++ toString s.faceReshape
  ++ "%. The effect should be gentle and enhance the natural bone structure.\n    *   **Nose**: Add subtle contouring (highlights and shadows) to the nose to give it a more defined and three-dimensional appearance.\n\n4.  **Body & Leg Sculpting**:\n    *   **Body**: Slim the waist and torso by approximately "
  ++ toString s.bodySlimming
  ++ "%.\n    *   **Chest**: Enhance the bust to be fuller by approximately "
  ++ toString s.chestEnhancement
  ++ "%, ensuring the result is natural and proportional to the body frame.\n    *   **Legs**: Elongate the legs by approximately "
  ++ toString s.legExtension
  ++ "% to create a taller, more slender silhouette.\n    *   **Constraint**: All body modifications must be proportional and realistic, without warping the background.\n\n5.  **Virtual Makeup & Filter**:\n    *   **Makeup**: Apply natural-looking virtual makeup, including lipstick, blush, and contouring that complements the person's skin tone. The opacity and color should be subtle and well-blended.\n    *   **Filter**: Apply a '"
  ++ s.filter
  ++ "' photographic filter to the final image. If 'None' is selected, do not apply any filter."

/-! ## PosterGenerator (second component of OutfitChanger.tsx) -/

/-- Component state of `PosterGenerator`. -/
structure PosterState where
  industry : String
  elements : String
  slogan : String
  style : String
  logoImage : Option JsFile
  logoImageBase64 : Option String
  generatedImages : List String
  isLoading : Bool
  error : Option String
deriving DecidableEq, Repr

/-- Initial state of `PosterGenerator` (`useState` defaults). -/
def posterInit : PosterState :=
  { industry := "Technology"
    elements := "A glowing brain, circuit patterns, people collaborating"
    slogan := "Innovate the Future"
    style := "Modern and minimalist"
    logoImage := none
    logoImageBase64 := none
    generatedImages := []
    isLoading := false
    error := none }

/-- `handleLogoChange` of PosterGenerator: clear the error, then validate the
declared MIME type; store the logo on acceptance, set the error and clear the
logo slot on rejection. The generated posters are not touched. -/
def posterHandleLogoChange (file? : Option JsFile) (s : PosterState) : PosterState :=
  let s1 := { s with error := none }
  match file? with
  | none => s1
  | some f =>
    if SUPPORTED_MIME_TYPES.contains f.type then
      { s1 with logoImage := some f, logoImageBase64 := some f.payload }
    else
      { s1 with
          error := some "Unsupported logo file type. Please upload a JPEG, PNG, or WEBP image."
          logoImage := none
          logoImageBase64 := none }

/-- Outcome of one awaited step-2 (logo-composite) `generateContent` call. -/
inductive Step2Result where
  | thrown (msg : String)
  | responded (r : Response)
deriving DecidableEq, Repr

/-- Whether a step-2 outcome is a resolved response (no rejection). -/
def Step2Result.isResponded : Step2Result → Bool
  | .thrown _ => false
  | .responded _ => true

/-- `addLogoToPoster`, with the awaited call's outcome passed explicitly: no
call is attempted without a logo; a resolved response yields its inline image
when present and otherwise falls back to the unmodified poster; a rejection
propagates as an error of the returned promise. -/
def addLogoToPoster (s : PosterState) (posterBase64 : String)
    (out : Step2Result) : Except String String :=
  if optStrFalsy s.logoImageBase64 || s.logoImage.isNone then
    .ok posterBase64
  else
    match out with
    | .thrown m => .error m
    | .responded r =>
      match firstImagePart r with
      | some d => .ok d.data
      | none => .ok posterBase64

/-- JavaScript `Promise.all`: resolves to the list of results when every
promise resolves, rejects when any promise rejects. -/
def jsPromiseAll : List (Except String String) → Except String (List String)
  | [] => .ok []
  | .error e :: _ => .error e
  | .ok a :: rest =>
    match jsPromiseAll rest with
    | .error e => .error e
    | .ok l => .ok (a :: l)

/-- Outcome of the awaited step-1 `generateImages` call: either the promise
rejects or it resolves to a list of poster payloads. -/
inductive Step1Result where
  | thrown (msg : String)
  | images (l : List String)
deriving DecidableEq, Repr

/-- `handleGenerateClick` of PosterGenerator, with the step-1 outcome and the
per-poster step-2 outcomes passed explicitly: guard the four text fields,
clear error and results, run step 1, throw when it yields no image, then run
the logo-composite calls concurrently and join them with `Promise.all` when a
logo is held; any escaped rejection is caught into the error state. -/
def posterGenerate (s : PosterState) (step1 : Step1Result)
    (outs : List Step2Result) : PosterState :=
  if s.industry.isEmpty || s.elements.isEmpty || s.slogan.isEmpty || s.style.isEmpty then
    { s with error := some "Please fill out all fields." }
  else
    let s1 := { s with isLoading := true, error := none, generatedImages := [] }
    let s2 :=
      match step1 with
      | .thrown m => { s1 with error := some ("An error occurred: " ++ m) }
      | .images posters =>
        if posters.isEmpty then
          { s1 with error := some ("An error occurred: " ++ "The model did not return any images. This might be due to a safety filter. Please try adjusting your prompt.") }
        else if optStrFalsy s.logoImageBase64 then
          { s1 with generatedImages := posters }
        else
          match jsPromiseAll (List.zipWith (addLogoToPoster s) posters outs) with
          | .error e => { s1 with error := some ("An error occurred: " ++ e) }
          | .ok l => { s1 with generatedImages := l }
    { s2 with isLoading := false }

/-- The per-slot value a resolved step-2 call leaves behind: the composited
image when the response carries one, the unmodified step-1 poster
otherwise. -/
def step2Fallback (posterBase64 : String) : Step2Result → String
  | .thrown _ => posterBase64
  | .responded r =>
    match firstImagePart r with
    | some d => d.data
    | none => posterBase64

/-! ## Auxiliary predicate and concrete sample data -/

/-- Inductive invariant of a SocialMediaConverter instance: a set error, a
missing original image, or a falsy base64 payload all exclude a held
generation result. -/
def smGood (s : SMState) : Prop :=
  (s.error.isSome = true → s.generatedImageBase64 = none) ∧
  ((s.originalImage.isNone = true ∨ optStrFalsy s.originalImageBase64 = true) →
    s.generatedImageBase64 = none)

/-- A sample JPEG file (accepted by the validators). -/
def jpegFileG : JsFile := { name := "p.jpg", type := "image/jpeg", payload := "PORTRAIT64" }

/-- A sample GIF file (rejected by the validators). -/
def gifFileG : JsFile := { name := "p.gif", type := "image/gif", payload := "GIF64" }

/-- A sample WEBP brooch file (accepted by the validators). -/
def broochFileG : JsFile := { name := "b.webp", type := "image/webp", payload := "BROOCH64" }

/-- A sample PNG logo file (accepted by the validators). -/
def logoFileG : JsFile := { name := "l.png", type := "image/png", payload := "LOGO64" }

/-- A service response whose first candidate carries an inline image part. -/
def imgResponseG : Response :=
  { candidates := [{ parts := [.text "here you go", .inline { mimeType := "image/png", data := "GEN64" }] }] }

/-- A service response whose first candidate carries only text parts. -/
def textResponseG : Response :=
  { candidates := [{ parts := [.text "refused"] }] }

/-- An ID-photo state in which a portrait has already been accepted. -/
def idWithPortrait : IDState :=
  { idInit with originalImage := some jpegFileG, originalImageBase64 := some "PORTRAIT64" }

/-- An ID-photo state holding both a generated result and an accepted
portrait. -/
def idWithResult : IDState :=
  { idWithPortrait with generatedImageBase64 := some "G" }

/-- Event trace: accept a portrait, generate successfully, then select an
unsupported portrait file. -/
def claim7Events : List IDEvent :=
  [.selectFile .portrait (some jpegFileG),
   .generate (.responded imgResponseG),
   .selectFile .portrait (some gifFileG)]

/-- A poster state holding a logo, ready to run the two-step workflow. -/
def posterLogoState : PosterState :=
  { posterInit with logoImage := some logoFileG, logoImageBase64 := some "LOGO64" }

/-- Step-2 outcomes in which the first composite call rejects and the other
two resolve. -/
def posterThrowOuts : List Step2Result :=
  [.thrown "network failure", .responded imgResponseG, .responded imgResponseG]

/-- Step-2 outcomes in which every call resolves, the first without an inline
image part. -/
def posterOkOuts : List Step2Result :=
  [.responded textResponseG, .responded imgResponseG]

/-! ## Lemmas on the substring machinery -/

theorem matchesAt_append {pat s : List Char} (t : List Char)
    (h : matchesAt pat s = true) : matchesAt pat (s ++ t) = true := by
  induction pat generalizing s with
  | nil => simp [matchesAt]
  | cons a as ih =>
    cases s with
    | nil => simp [matchesAt] at h
    | cons b bs =>
      simp only [matchesAt, Bool.and_eq_true] at h ⊢
      exact ⟨h.1, ih h.2⟩

theorem occursIn_append_left {pat s : List Char} (t : List Char)
    (h : occursIn pat s = true) : occursIn pat (s ++ t) = true := by
  induction s with
  | nil =>
    cases pat with
    | nil => cases t <;> simp [occursIn, matchesAt]
    | cons a as => simp [occursIn, matchesAt] at h
  | cons c rest ih =>
    simp only [occursIn, Bool.or_eq_true] at h
    cases h with
    | inl h =>
      simp only [List.cons_append, occursIn, Bool.or_eq_true]
      exact Or.inl (matchesAt_append t h)
    | inr h =>
      simp only [List.cons_append, occursIn, Bool.or_eq_true]
      exact Or.inr (ih h)

theorem occursIn_append_right {pat : List Char} (s : List Char) {t : List Char}
    (h : occursIn pat t = true) : occursIn pat (s ++ t) = true := by
  induction s with
  | nil => simpa using h
  | cons c rest ih =>
    simp only [List.cons_append, occursIn, Bool.or_eq_true]
    exact Or.inr ih

theorem strOccurs_append_left {needle a : String} (b : String)
    (h : strOccurs needle a = true) : strOccurs needle (a ++ b) = true := by
  cases a with
  | mk da =>
    cases b with
    | mk db => exact occursIn_append_left db h

theorem strOccurs_append_right {needle : String} (a : String) {b : String}
    (h : strOccurs needle b = true) : strOccurs needle (a ++ b) = true := by
  cases a with
  | mk da =>
    cases b with
    | mk db => exact occursIn_append_right da h

/-! ## Claim C2: the Validator's MIME allow-list -/

/-- C2: for every selected file, the Validator (of IDPhotoGenerator, any
slot, and of SocialMediaConverter) accepts it as the current ImageInput if
and only if its declared MIME type is in {image/jpeg, image/png,
image/webp}; on any other declared type it sets an unsupported-file
ErrorState, the file is never stored, and the previously held image of that
slot is cleared. -/
theorem claim2_validator_allowlist (sl : IDSlot) (s : IDState) (t : SMState) (f : JsFile) :
    ((SUPPORTED_MIME_TYPES.contains f.type = true →
        idSlotImage (idHandleFileChange sl (some f) s) sl = some f ∧
        idSlotBase64 (idHandleFileChange sl (some f) s) sl = some f.payload) ∧
     (SUPPORTED_MIME_TYPES.contains f.type = false →
        (idHandleFileChange sl (some f) s).error =
          some ("Unsupported " ++ idSlotName sl ++ " file type. Please upload a JPEG, PNG, or WEBP image.") ∧
        idSlotImage (idHandleFileChange sl (some f) s) sl = none ∧
        idSlotBase64 (idHandleFileChange sl (some f) s) sl = none)) ∧
    ((SUPPORTED_MIME_TYPES.contains f.type = true →
        (smHandleFileChange (some f) t).originalImage = some f ∧
        (smHandleFileChange (some f) t).originalImageBase64 = some f.payload) ∧
     (SUPPORTED_MIME_TYPES.contains f.type = false →
        (smHandleFileChange (some f) t).error =
          some "Unsupported file type. Please upload a JPEG, PNG, or WEBP image." ∧
        (smHandleFileChange (some f) t).originalImage = none ∧
        (smHandleFileChange (some f) t).originalImageBase64 = none)) := by
  constructor
  · constructor
    · intro h
      have hm : f.type ∈ SUPPORTED_MIME_TYPES := by simpa using h
      cases sl <;> simp [idHandleFileChange, hm, idSetSlot, idSlotImage, idSlotBase64]
    · intro h
      have hm : ¬ f.type ∈ SUPPORTED_MIME_TYPES := by simpa using h
      cases sl <;> simp [idHandleFileChange, hm, idSetSlot, idSlotImage, idSlotBase64, idSlotName]
  · constructor
    · intro h
      have hm : f.type ∈ SUPPORTED_MIME_TYPES := by simpa using h
      simp [smHandleFileChange, hm]
    · intro h
      have hm : ¬ f.type ∈ SUPPORTED_MIME_TYPES := by simpa using h
      simp [smHandleFileChange, hm]

/-- Witness for C2: a JPEG portrait is accepted and stored; a GIF is
rejected with the unsupported-portrait message and the slot cleared. -/
theorem claim2_validator_allowlist_witness :
    idSlotImage (idHandleFileChange .portrait (some jpegFileG) idInit) .portrait = some jpegFileG ∧
    (idHandleFileChange .portrait (some gifFileG) idInit).error =
      some "Unsupported portrait file type. Please upload a JPEG, PNG, or WEBP image." :=
  ⟨((claim2_validator_allowlist .portrait idInit smInit jpegFileG).1.1 (by decide)).1,
   ((claim2_validator_allowlist .portrait idInit smInit gifFileG).1.2 (by decide)).1⟩

/-! ## Claim C9: what a rejection leaves behind -/

/-- C9 counterexample: with a portrait already accepted, selecting a GIF
does not leave the slot's prior state unchanged: the previously accepted
portrait is cleared. -/
theorem claim9_counterexample :
    idWithPortrait.originalImage = some jpegFileG ∧
    (idHandleFileChange .portrait (some gifFileG) idWithPortrait).originalImage = none := by
  decide

/-- C9 amended: for every selected file whose declared MIME type is not in
the allow-list, the Validator rejects it and sets ErrorState, and it clears
the slot (the previously accepted image of that slot is discarded rather
than retained); the other slots, the attire parameters and the pending
GenerationResult of the ID-photo tool are left unchanged, while the
social-converter handler also clears its pending GenerationResult. -/
theorem claim9_amended (sl : IDSlot) (s : IDState) (t : SMState) (f : JsFile)
    (h : SUPPORTED_MIME_TYPES.contains f.type = false) :
    ((idHandleFileChange sl (some f) s).error =
        some ("Unsupported " ++ idSlotName sl ++ " file type. Please upload a JPEG, PNG, or WEBP image.") ∧
     idSlotImage (idHandleFileChange sl (some f) s) sl = none ∧
     idSlotBase64 (idHandleFileChange sl (some f) s) sl = none ∧
     (∀ sl2 : IDSlot, sl2 ≠ sl →
        idSlotImage (idHandleFileChange sl (some f) s) sl2 = idSlotImage s sl2 ∧
        idSlotBase64 (idHandleFileChange sl (some f) s) sl2 = idSlotBase64 s sl2) ∧
     (idHandleFileChange sl (some f) s).generatedImageBase64 = s.generatedImageBase64 ∧
     (idHandleFileChange sl (some f) s).suitColor = s.suitColor ∧
     (idHandleFileChange sl (some f) s).shirtColor = s.shirtColor ∧
     (idHandleFileChange sl (some f) s).hasTie = s.hasTie ∧
     (idHandleFileChange sl (some f) s).tieColor = s.tieColor) ∧
    ((smHandleFileChange (some f) t).error =
        some "Unsupported file type. Please upload a JPEG, PNG, or WEBP image." ∧
     (smHandleFileChange (some f) t).originalImage = none ∧
     (smHandleFileChange (some f) t).originalImageBase64 = none ∧
     (smHandleFileChange (some f) t).generatedImageBase64 = none ∧
     (smHandleFileChange (some f) t).platform = t.platform) := by
  have hm : ¬ f.type ∈ SUPPORTED_MIME_TYPES := by simpa using h
  refine ⟨⟨?_, ?_, ?_, ?_, ?_, ?_, ?_, ?_, ?_⟩, ?_⟩
  · cases sl <;> simp [idHandleFileChange, hm, idSetSlot, idSlotName]
  · cases sl <;> simp [idHandleFileChange, hm, idSetSlot, idSlotImage]
  · cases sl <;> simp [idHandleFileChange, hm, idSetSlot, idSlotBase64]
  · intro sl2 hne
    cases sl <;> cases sl2 <;>
      simp_all [idHandleFileChange, hm, idSetSlot, idSlotImage, idSlotBase64]
  · cases sl <;> simp [idHandleFileChange, hm, idSetSlot]
  · cases sl <;> simp [idHandleFileChange, hm, idSetSlot]
  · cases sl <;> simp [idHandleFileChange, hm, idSetSlot]
  · cases sl <;> simp [idHandleFileChange, hm, idSetSlot]
  · cases sl <;> simp [idHandleFileChange, hm, idSetSlot]
  · simp [smHandleFileChange, hm]

/-- Witness for C9 amended: rejecting a GIF in the background slot keeps the
previously accepted portrait while clearing the background slot. -/
theorem claim9_amended_witness :
    idSlotImage (idHandleFileChange .background (some gifFileG) idWithPortrait) .portrait
      = some jpegFileG ∧
    idSlotImage (idHandleFileChange .background (some gifFileG) idWithPortrait) .background
      = none :=
  ⟨((claim9_amended .background idWithPortrait smInit gifFileG
      (by decide)).1.2.2.2.1 .portrait (by decide)).1,
   (claim9_amended .background idWithPortrait smInit gifFileG (by decide)).1.2.1⟩

/-! ## Claim C8: what a successful acceptance clears -/

/-- C8 counterexample: the ID-photo tool's handler accepts a JPEG (its MIME
type is on the allow-list) yet leaves the prior GenerationResult in place
instead of clearing it. -/
theorem claim8_counterexample :
    SUPPORTED_MIME_TYPES.contains jpegFileG.type = true ∧
    (idHandleFileChange .portrait (some jpegFileG) idWithResult).generatedImageBase64
      = some "G" := by
  decide

/-- C8 amended: whenever the Validator accepts a file into a slot, any prior
ErrorState is cleared in every tool; the prior GenerationResult is cleared
by the social-converter handler but left unchanged by the ID-photo tool's
slot handlers and by the poster tool's logo handler. -/
theorem claim8_amended (f : JsFile)
    (hmime : SUPPORTED_MIME_TYPES.contains f.type = true) :
    (∀ t : SMState,
      (smHandleFileChange (some f) t).error = none ∧
      (smHandleFileChange (some f) t).generatedImageBase64 = none) ∧
    (∀ (sl : IDSlot) (s : IDState),
      (idHandleFileChange sl (some f) s).error = none ∧
      (idHandleFileChange sl (some f) s).generatedImageBase64 = s.generatedImageBase64) ∧
    (∀ p : PosterState,
      (posterHandleLogoChange (some f) p).error = none ∧
      (posterHandleLogoChange (some f) p).generatedImages = p.generatedImages) := by
  have hm : f.type ∈ SUPPORTED_MIME_TYPES := by simpa using hmime
  refine ⟨fun t => ?_, fun sl s => ?_, fun p => ?_⟩
  · simp [smHandleFileChange, hm]
  · cases sl <;> simp [idHandleFileChange, hm, idSetSlot]
  · simp [posterHandleLogoChange, hm]

/-- Witness for C8 amended: accepting a JPEG portrait clears a prior error
in every tool, and the social converter also drops its result. -/
theorem claim8_amended_witness :
    (smHandleFileChange (some jpegFileG)
      { smInit with error := some "old", generatedImageBase64 := some "G" }).error = none ∧
    (smHandleFileChange (some jpegFileG)
      { smInit with error := some "old", generatedImageBase64 := some "G" }).generatedImageBase64 = none :=
  (claim8_amended jpegFileG (by decide)).1
    { smInit with error := some "old", generatedImageBase64 := some "G" }

/-! ## Claim C1: the Result Handler -/

/-- C1: for every service response handled by a generation run (of
SocialMediaConverter and of IDPhotoGenerator), when the response carries an
inline image payload the handler stores exactly that payload as the new
GenerationResult and clears ErrorState; when no inline image part is found
it sets the descriptive no-image ErrorState and leaves GenerationResult
empty. -/
theorem claim1_result_handler (t : SMState) (s : IDState) (r : Response)
    (ht1 : t.originalImage.isNone = false) (ht2 : optStrFalsy t.originalImageBase64 = false)
    (hs1 : s.originalImage.isNone = false) (hs2 : optStrFalsy s.originalImageBase64 = false) :
    (∀ d : InlineData, firstImagePart r = some d →
      (smGenerate (.responded r) t).generatedImageBase64 = some d.data ∧
      (smGenerate (.responded r) t).error = none ∧
      (idGenerate (.responded r) s).generatedImageBase64 = some d.data ∧
      (idGenerate (.responded r) s).error = none) ∧
    (firstImagePart r = none →
      (smGenerate (.responded r) t).error = some (noImageMsg "photo") ∧
      (smGenerate (.responded r) t).generatedImageBase64 = none ∧
      (idGenerate (.responded r) s).error = some (noImageMsg "photo") ∧
      (idGenerate (.responded r) s).generatedImageBase64 = none) := by
  constructor
  · intro d hd
    simp [smGenerate, idGenerate, ht1, ht2, hs1, hs2, hd]
  · intro hnone
    simp [smGenerate, idGenerate, ht1, ht2, hs1, hs2, hnone]

/-- Witness for C1: with an accepted portrait, a response carrying an inline
image yields exactly that payload and no error, and a text-only response
yields the no-image error and an empty result. -/
theorem claim1_result_handler_witness :
    (smGenerate (.responded imgResponseG)
      { smInit with originalImage := some jpegFileG, originalImageBase64 := some "PORTRAIT64" }).generatedImageBase64 = some "GEN64" ∧
    (idGenerate (.responded textResponseG) idWithPortrait).error = some (noImageMsg "photo") :=
  ⟨((claim1_result_handler
      { smInit with originalImage := some jpegFileG, originalImageBase64 := some "PORTRAIT64" }
      idWithPortrait imgResponseG (by decide) (by decide) (by decide) (by decide)).1
      { mimeType := "image/png", data := "GEN64" } (by decide)).1,
   ((claim1_result_handler
      { smInit with originalImage := some jpegFileG, originalImageBase64 := some "PORTRAIT64" }
      idWithPortrait textResponseG (by decide) (by decide) (by decide) (by decide)).2
      (by decide)).2.2.1⟩

/-! ## Claim C4: panel-count normalization -/

/-- C4: for every string entered into the doodle tool's panel-count field,
the stored panel count is normalized into [1,9] and never rejected: a
non-numeric entry becomes 1, any parsed value greater than 9 becomes 9, any
parsed value less than 1 becomes 1, and an in-range value is stored as
entered. -/
theorem claim4_panel_count_clamped (input : String) :
    1 ≤ handlePanelCountChange input ∧ handlePanelCountChange input ≤ 9 ∧
    (jsParseInt input = none → handlePanelCountChange input = 1) ∧
    (∀ v : Int, jsParseInt input = some v →
      (9 < v → handlePanelCountChange input = 9) ∧
      (v < 1 → handlePanelCountChange input = 1) ∧
      (1 ≤ v → v ≤ 9 → handlePanelCountChange input = v)) := by
  unfold handlePanelCountChange
  cases h : jsParseInt input with
  | none =>
    refine ⟨?_, ?_, fun _ => ?_, fun v hv => ?_⟩ <;> simp_all
  | some v =>
    simp only [h, Option.some.injEq, forall_eq']
    split_ifs <;> refine ⟨by omega, by omega, by simp_all, ?_⟩ <;>
      exact ⟨fun hv => by omega, fun hv => by omega, fun h1 h9 => by omega⟩

/-- Witness for C4: the entry "15" clamps to 9, "0" clamps to 1, and the
non-numeric entry "abc" becomes 1. -/
theorem claim4_panel_count_clamped_witness :
    handlePanelCountChange "15" = 9 ∧
    handlePanelCountChange "0" = 1 ∧
    handlePanelCountChange "abc" = 1 :=
  ⟨((claim4_panel_count_clamped "15").2.2.2 15 (by decide)).1 (by decide),
   ((claim4_panel_count_clamped "0").2.2.2 0 (by decide)).2.1 (by decide),
   (claim4_panel_count_clamped "abc").2.2.1 (by decide)⟩

/-! ## Claim C5: the Prompt Builder is a pure function of its parameters -/

/-- C5: each tool's prompt builder depends only on its tool parameters (it
reads none of the image, loading or error state): two states with identical
parameters yield byte-identical prompt strings, for the social converter
(parameter: the platform), the beauty camera (parameters: level, sliders,
filter) and the doodle tool (parameters: art style and panel count, the
latter already normalized by its change handler). -/
theorem claim5_prompt_builder_pure :
    (∀ t1 t2 : SMState, t1.platform = t2.platform →
      smBuildPrompt t1 = smBuildPrompt t2) ∧
    (∀ b1 b2 : BeautyState, beautyParamsOf b1 = beautyParamsOf b2 →
      beautyBuildPrompt b1 = beautyBuildPrompt b2) ∧
    (∀ (a1 a2 : String) (n1 n2 : Int), a1 = a2 → n1 = n2 →
      doodleBuildPrompt a1 n1 = doodleBuildPrompt a2 n2) := by
  refine ⟨fun t1 t2 h => ?_, fun b1 b2 h => ?_, fun a1 a2 n1 n2 ha hn => ?_⟩
  · unfold smBuildPrompt
    rw [h]
  · have h1 := congrArg BeautyParams.beautyLevel h
    have h2 := congrArg BeautyParams.faceReshape h
    have h3 := congrArg BeautyParams.bodySlimming h
    have h4 := congrArg BeautyParams.chestEnhancement h
    have h5 := congrArg BeautyParams.legExtension h
    have h6 := congrArg BeautyParams.filter h
    simp only [beautyParamsOf] at h1 h2 h3 h4 h5 h6
    unfold beautyBuildPrompt
    rw [h1, h2, h3, h4, h5, h6]
  · rw [ha, hn]

/-- Witness for C5: two social-converter states that differ in every
non-parameter field but share the platform produce the same prompt. -/
theorem claim5_prompt_builder_pure_witness :
    smBuildPrompt { smInit with originalImage := some jpegFileG, isLoading := true }
      = smBuildPrompt { smInit with error := some "old" } :=
  claim5_prompt_builder_pure.1
    { smInit with originalImage := some jpegFileG, isLoading := true }
    { smInit with error := some "old" } rfl

/-! ## Claim C6: the white-background fallback clause -/

/-- C6 counterexample: with no background image selected (the initial
attire parameters), the built prompt does not contain the literal substring
"solid, pure white color (#FFFFFF)": the template wraps "white color" in
markdown asterisks. -/
theorem claim6_counterexample :
    idHasBg idInit = false ∧
    strOccurs "solid, pure white color (#FFFFFF)" (idPromptText idInit) = false := by
  decide

/-- C6 amended: for every ID-photo generation with no background image
held, the built prompt contains the literal substring
"solid, pure **white color** (#FFFFFF)" (with markdown emphasis around
"white color"), and — for the default attire parameters, with or without a
brooch — it does not contain the substring "second image". -/
theorem claim6_amended (s : IDState) (hbg : idHasBg s = false) :
    strOccurs "solid, pure **white color** (#FFFFFF)" (idPromptText s) = true ∧
    (s.suitColor = "black" → s.shirtColor = "white" → s.hasTie = true →
      s.tieColor = "deep blue" →
      strOccurs "second image" (idPromptText s) = false) := by
  constructor
  · unfold idPromptText
    apply strOccurs_append_right
    rw [hbg]
    simp only [Bool.false_eq_true, if_false]
    apply strOccurs_append_left
    decide
  · intro h1 h2 h3 h4
    cases hbr : idHasBrooch s with
    | false =>
      simp only [idPromptText, idPromptHead, idPromptTail, hbg, hbr, h1, h2, h3, h4,
        Bool.false_eq_true, if_false, if_true]
      decide
    | true =>
      simp only [idPromptText, idPromptHead, idPromptTail, hbg, hbr, h1, h2, h3, h4,
        Bool.false_eq_true, if_false, if_true]
      decide

/-- Witness for C6 amended: in the initial state (no background image) the
prompt contains the asterisked white-background instruction and never
mentions a second image. -/
theorem claim6_amended_witness :
    strOccurs "solid, pure **white color** (#FFFFFF)" (idPromptText idInit) = true ∧
    strOccurs "second image" (idPromptText idInit) = false :=
  ⟨(claim6_amended idInit (by decide)).1,
   (claim6_amended idInit (by decide)).2 rfl rfl rfl rfl⟩

/-! ## Claim C10: brooch without background — part count vs. prompt wording -/

/-- C10: whenever a brooch image is held but no background image is held,
the assembled request contains exactly two inline image parts (the portrait
then the brooch) followed by one text part, yet the prompt's accessory
instruction refers to the brooch as the third image. -/
theorem claim10_brooch_numbering (s : IDState) (pf bf : JsFile) (pd bd : String)
    (hp : s.originalImage = some pf) (hpb : s.originalImageBase64 = some pd)
    (hbg : s.backgroundImage = none)
    (hbf : s.broochImage = some bf) (hbd : s.broochImageBase64 = some bd)
    (hbne : bd.isEmpty = false) :
    idParts s = [ReqPart.inlineImg pd pf.type, ReqPart.inlineImg bd bf.type,
                 ReqPart.textPart (idPromptText s)] ∧
    strOccurs "third image (the brooch)" (idPromptText s) = true := by
  have hbgF : idHasBg s = false := by
    simp [idHasBg, hbg]
  have hbrT : idHasBrooch s = true := by
    simp [idHasBrooch, hbf, optStrFalsy, hbd, hbne]
  constructor
  · simp [idParts, hbgF, hbrT, hp, hpb, hbf, hbd]
  · unfold idPromptText
    apply strOccurs_append_right
    apply strOccurs_append_right
    unfold idPromptTail
    rw [hbrT]
    simp only [if_true]
    apply strOccurs_append_left
    decide

/-- Witness for C10: with the sample portrait and brooch accepted and no
background, the request is portrait-inline, brooch-inline, then text, and
the prompt speaks of the third image. -/
theorem claim10_brooch_numbering_witness :
    idParts { idWithPortrait with broochImage := some broochFileG, broochImageBase64 := some "BROOCH64" }
      = [ReqPart.inlineImg "PORTRAIT64" "image/jpeg", ReqPart.inlineImg "BROOCH64" "image/webp",
         ReqPart.textPart (idPromptText { idWithPortrait with broochImage := some broochFileG, broochImageBase64 := some "BROOCH64" })] ∧
    strOccurs "third image (the brooch)"
      (idPromptText { idWithPortrait with broochImage := some broochFileG, broochImageBase64 := some "BROOCH64" }) = true :=
  claim10_brooch_numbering
    { idWithPortrait with broochImage := some broochFileG, broochImageBase64 := some "BROOCH64" }
    jpegFileG broochFileG "PORTRAIT64" "BROOCH64" rfl rfl rfl rfl rfl rfl

/-! ## Claim C7: mutual exclusion of error and result -/

theorem smStep_preserves_good (s : SMState) (e : SMEvent) (h : smGood s) :
    smGood (smStep s e) := by
  obtain ⟨h1, h2⟩ := h
  cases e with
  | selectFile f =>
    cases f with
    | none => exact ⟨by simp [smStep, smHandleFileChange], by simp [smStep, smHandleFileChange]⟩
    | some f =>
      by_cases hm : f.type ∈ SUPPORTED_MIME_TYPES
      · exact ⟨by simp [smStep, smHandleFileChange, hm], by simp [smStep, smHandleFileChange, hm]⟩
      · exact ⟨by simp [smStep, smHandleFileChange, hm], by simp [smStep, smHandleFileChange, hm]⟩
  | choosePlatform p => exact ⟨h1, h2⟩
  | generate out =>
    simp only [smStep, smGenerate]
    by_cases hg : (s.originalImage.isNone || optStrFalsy s.originalImageBase64) = true
    · have hgen : s.generatedImageBase64 = none := by
        rcases Bool.or_eq_true_iff.mp hg with hg1 | hg2
        · exact h2 (Or.inl hg1)
        · exact h2 (Or.inr hg2)
      rw [hg]
      refine ⟨fun _ => by simpa using hgen, fun _ => by simpa using hgen⟩
    · rw [Bool.not_eq_true] at hg
      rw [hg]
      have hg2 := Bool.or_eq_false_iff.mp hg
      cases out with
      | thrown m => exact ⟨by simp, by simp⟩
      | responded r =>
        cases hfi : firstImagePart r with
        | some d =>
          refine ⟨fun hc => ?_, fun hc => ?_⟩
          · simp [hfi] at hc
          · simp [hfi, hg2.1, hg2.2] at hc
        | none => exact ⟨by simp [hfi], by simp [hfi]⟩

theorem smRun_good (evs : List SMEvent) : smGood (smRun evs) := by
  suffices h : ∀ (l : List SMEvent) (s : SMState), smGood s → smGood (l.foldl smStep s) by
    exact h evs smInit ⟨by simp [smInit], by simp [smInit]⟩
  intro l
  induction l with
  | nil => exact fun s hs => hs
  | cons e rest ih =>
    intro s hs
    exact ih (smStep s e) (smStep_preserves_good s e hs)

/-- C7 counterexample: in the ID-photo tool, after an accepted portrait, a
successful generation and then a rejected file selection, the reachable
state holds a set ErrorState and a non-empty GenerationResult at the same
time. -/
theorem claim7_counterexample :
    (idRun claim7Events).error.isSome = true ∧
    (idRun claim7Events).generatedImageBase64 = some "GEN64" := by
  decide

/-- C7 amended: in the social converter (whose file handler clears the
pending result before validating, as do the doodle, outfit and beauty
tools), every reachable state keeps ErrorState and a held GenerationResult
mutually exclusive; in the ID-photo tool (and the poster tool, whose
handlers do not clear the result) the two can coexist after a rejected file
selection follows a successful generation. -/
theorem claim7_amended (evs : List SMEvent)
    (h : (smRun evs).error.isSome = true) :
    (smRun evs).generatedImageBase64 = none :=
  (smRun_good evs).1 h

/-- Witness for C7 amended: after a rejected file selection the social
converter holds an error and, by the theorem, no generation result. -/
theorem claim7_amended_witness :
    (smRun [.selectFile (some gifFileG)]).generatedImageBase64 = none :=
  claim7_amended [.selectFile (some gifFileG)] (by decide)

/-! ## Claim C3: the poster tool's step-2 fallback -/

theorem addLogo_responded_ok (s : PosterState) (l : JsFile)
    (hlogo : optStrFalsy s.logoImageBase64 = false) (hlf : s.logoImage = some l)
    (p : String) (r : Response) :
    addLogoToPoster s p (.responded r) = .ok (step2Fallback p (.responded r)) := by
  cases hfi : firstImagePart r with
  | some d => simp [addLogoToPoster, hlogo, hlf, step2Fallback, hfi]
  | none => simp [addLogoToPoster, hlogo, hlf, step2Fallback, hfi]

theorem jsPromiseAll_zip_ok (s : PosterState) (l : JsFile)
    (hlogo : optStrFalsy s.logoImageBase64 = false) (hlf : s.logoImage = some l) :
    ∀ (posters : List String) (outs : List Step2Result),
      outs.all Step2Result.isResponded = true →
      jsPromiseAll (List.zipWith (addLogoToPoster s) posters outs) =
        .ok (List.zipWith step2Fallback posters outs) := by
  intro posters
  induction posters with
  | nil => intro outs _; simp [jsPromiseAll]
  | cons p ps ih =>
    intro outs hall
    cases outs with
    | nil => simp [jsPromiseAll]
    | cons o os =>
      simp only [List.all_cons, Bool.and_eq_true] at hall
      cases o with
      | thrown m => simp [Step2Result.isResponded] at hall
      | responded r =>
        simp only [List.zipWith_cons_cons]
        rw [addLogo_responded_ok s l hlogo hlf p r]
        simp only [jsPromiseAll]
        rw [ih os hall.2]

theorem jsPromiseAll_zip_error (s : PosterState) (l : JsFile)
    (hlogo : optStrFalsy s.logoImageBase64 = false) (hlf : s.logoImage = some l) :
    ∀ (posters : List String) (outs : List Step2Result),
      outs.length = posters.length →
      outs.any (fun o => !o.isResponded) = true →
      ∃ e, jsPromiseAll (List.zipWith (addLogoToPoster s) posters outs) = .error e := by
  intro posters
  induction posters with
  | nil =>
    intro outs hlen hany
    rw [List.length_nil, List.length_eq_zero] at hlen
    subst hlen
    simp at hany
  | cons p ps ih =>
    intro outs hlen hany
    cases outs with
    | nil => simp at hany
    | cons o os =>
      simp only [List.length_cons, Nat.succ.injEq] at hlen
      cases o with
      | thrown m =>
        refine ⟨m, ?_⟩
        simp [List.zipWith_cons_cons, addLogoToPoster, hlogo, hlf, jsPromiseAll]
      | responded r =>
        simp only [List.any_cons, Step2Result.isResponded, Bool.not_true,
          Bool.false_or] at hany
        obtain ⟨e, he⟩ := ih os hlen hany
        refine ⟨e, ?_⟩
        simp only [List.zipWith_cons_cons]
        rw [addLogo_responded_ok s l hlogo hlf p r]
        simp only [jsPromiseAll]
        rw [he]

theorem zip_fallback_get (posters : List String) (outs : List Step2Result) :
    ∀ (i : Nat) (r : Response), outs[i]? = some (.responded r) → firstImagePart r = none →
      (List.zipWith step2Fallback posters outs)[i]? = posters[i]? := by
  induction posters generalizing outs with
  | nil => intro i r _ _; simp
  | cons p ps ih =>
    intro i r hi hfi
    cases outs with
    | nil => simp at hi
    | cons o os =>
      cases i with
      | zero =>
        simp only [List.getElem?_cons_zero, Option.some.injEq] at hi
        subst hi
        simp [step2Fallback, hfi]
      | succ n =>
        simp only [List.getElem?_cons_succ] at hi ⊢
        simp only [List.zipWith_cons_cons, List.getElem?_cons_succ]
        exact ih os n r hi hfi

/-- C3 counterexample: with a logo held, step 1 returning three posters and
the first step-2 logo-composite call throwing, the final GenerationResult is
empty (count 0, not 3) and an ErrorState is raised: the thrown call's slot
does not fall back to its step-1 payload. -/
theorem claim3_counterexample :
    (posterGenerate posterLogoState (.images ["p1", "p2", "p3"]) posterThrowOuts).generatedImages = [] ∧
    (posterGenerate posterLogoState (.images ["p1", "p2", "p3"]) posterThrowOuts).error.isSome = true := by
  decide

/-- C3 amended: in the poster tool's two-step workflow with a logo held, if
every step-2 call resolves, the final GenerationResult count equals the
step-1 count and every slot whose response carried no inline image part
keeps its unmodified step-1 payload; but if any step-2 call throws, the
rejection propagates through the `Promise.all` join: the run ends with an
ErrorState and an empty GenerationResult instead of falling back. -/
theorem claim3_amended (s : PosterState) (l : JsFile)
    (posters : List String) (outs : List Step2Result)
    (hind : s.industry.isEmpty = false) (hele : s.elements.isEmpty = false)
    (hslo : s.slogan.isEmpty = false) (hsty : s.style.isEmpty = false)
    (hlogo : optStrFalsy s.logoImageBase64 = false) (hlf : s.logoImage = some l)
    (hne : posters.isEmpty = false) (hlen : outs.length = posters.length) :
    (outs.all Step2Result.isResponded = true →
      (posterGenerate s (.images posters) outs).generatedImages.length = posters.length ∧
      (∀ (i : Nat) (r : Response), outs[i]? = some (.responded r) → firstImagePart r = none →
        (posterGenerate s (.images posters) outs).generatedImages[i]? = posters[i]?)) ∧
    (outs.any (fun o => !o.isResponded) = true →
      (posterGenerate s (.images posters) outs).generatedImages = [] ∧
      (posterGenerate s (.images posters) outs).error.isSome = true) := by
  constructor
  · intro hall
    have hok := jsPromiseAll_zip_ok s l hlogo hlf posters outs hall
    constructor
    · simp only [posterGenerate, hind, hele, hslo, hsty, hlogo, hne, hok,
        Bool.false_eq_true, if_false]
      simp [List.length_zipWith, Nat.min_eq_left (Nat.le_of_eq hlen.symm)]
    · intro i r hi hfi
      simp only [posterGenerate, hind, hele, hslo, hsty, hlogo, hne, hok,
        Bool.false_eq_true, if_false]
      simpa using zip_fallback_get posters outs i r hi hfi
  · intro hany
    obtain ⟨e, he⟩ := jsPromiseAll_zip_error s l hlogo hlf posters outs hlen hany
    simp [posterGenerate, hind, hele, hslo, hsty, hlogo, hne, he]

/-- Witness for C3 amended: with the sample logo state and two posters whose
step-2 calls both resolve, the first returning no inline image part, the
final count is 2 and slot 0 keeps its step-1 payload. -/
theorem claim3_amended_witness :
    (posterGenerate posterLogoState (.images ["a", "b"]) posterOkOuts).generatedImages.length = 2 ∧
    (posterGenerate posterLogoState (.images ["a", "b"]) posterOkOuts).generatedImages[0]? = some "a" :=
  ⟨((claim3_amended posterLogoState logoFileG ["a", "b"] posterOkOuts
      rfl rfl rfl rfl rfl rfl rfl rfl).1 (by decide)).1,
   by
    have h := ((claim3_amended posterLogoState logoFileG ["a", "b"] posterOkOuts
      rfl rfl rfl rfl rfl rfl rfl rfl).1 (by decide)).2 0 textResponseG (by decide) (by decide)
    simpa using h⟩

end AIImageTools
